import Mathlib

/-!
Verification of the Anuneko chat plugin (`src/__init__.py`).

The development shallowly embeds the plugin's session store, transport
outcomes, stream decoder/aggregator (`_stream_reply`), session creation
(`_create_new_session`), model switching (`_switch_model` / `switch_model`),
`new_session` and `handle_chat_command`.  Network effects are modelled by
passing the outcome of each HTTP call as an explicit parameter; the two
in-memory dictionaries `user_sessions` / `user_models` are modelled as
functions `String → Option _` threaded through the operations.
-/

namespace Anuneko

/-- JSON values as produced by Python's `json.loads` on the payloads this
plugin handles.  Numbers are modelled as integers: the streams this plugin
decodes carry only integer tags, and float syntax is treated as unparseable
by the embedded parser. -/
inductive Json where
  | null
  | bool (b : Bool)
  | num (n : Int)
  | str (s : String)
  | arr (elems : List Json)
  | obj (fields : List (String × Json))
deriving Repr

/-- Last-occurrence lookup in an object's field list, matching Python dict
semantics for duplicate keys in `json.loads` (last one wins). -/
def jlookup (fields : List (String × Json)) (k : String) : Option Json :=
  match fields with
  | [] => none
  | (k1, v) :: rest =>
    match jlookup rest k with
    | some r => some r
    | none => if k1 = k then some v else none

/-- Python `j.get(k)` / `k in j` for dict values; `none` on non-objects
(where the real code would raise and the surrounding handler catches). -/
def Json.getOpt : Json → String → Option Json
  | .obj fs, k => jlookup fs k
  | _, _ => none

/-- Python truthiness of a JSON value (`if chat_id:` etc.). -/
def truthy : Json → Bool
  | .null => false
  | .bool b => b
  | .num n => !(n == 0)
  | .str s => !(s == "")
  | .arr l => !l.isEmpty
  | .obj fs => !fs.isEmpty

/-- Python `a or b` restricted to JSON values (`data.get("chat_id") or
data.get("id")`): the first operand if truthy, else the second. -/
def pyOr (a b : Json) : Json :=
  if truthy a then a else b

/-- Python `j.get(k)`: the value, or `None` when the key is absent. -/
def getOrNull (j : Json) (k : String) : Json :=
  (j.getOpt k).getD .null

-- ---------------------------------------------------------------------------
-- A JSON parser mirroring `json.loads` on the subset used by the stream
-- (objects, arrays, strings with escapes, integers, true/false/null).
-- ---------------------------------------------------------------------------

/-- JSON whitespace accepted between tokens by `json.loads`. -/
def isJsonWs (c : Char) : Bool :=
  c == ' ' || c == '\t' || c == '\n' || c == '\r'

/-- Drop leading JSON whitespace. -/
def skipWs : List Char → List Char
  | [] => []
  | c :: rest => if isJsonWs c then skipWs rest else c :: rest

/-- Hex digit value, for \uXXXX escapes. -/
def hexVal (c : Char) : Option Nat :=
  if '0' ≤ c && c ≤ '9' then some (c.toNat - 48)
  else if 'a' ≤ c && c ≤ 'f' then some (c.toNat - 87)
  else if 'A' ≤ c && c ≤ 'F' then some (c.toNat - 55)
  else none

/-- Body of a JSON string after the opening quote: returns the decoded
string and the input after the closing quote.  Mirrors strict `json.loads`:
unescaped control characters are rejected, `\uXXXX` outside the surrogate
range is decoded. -/
def parseStringBody : List Char → List Char → Option (String × List Char)
  | [], _ => none
  | '"' :: rest, acc => some (⟨acc.reverse⟩, rest)
  | '\\' :: '"' :: rest, acc => parseStringBody rest ('"' :: acc)
  | '\\' :: '\\' :: rest, acc => parseStringBody rest ('\\' :: acc)
  | '\\' :: '/' :: rest, acc => parseStringBody rest ('/' :: acc)
  | '\\' :: 'b' :: rest, acc => parseStringBody rest ('\x08' :: acc)
  | '\\' :: 'f' :: rest, acc => parseStringBody rest ('\x0c' :: acc)
  | '\\' :: 'n' :: rest, acc => parseStringBody rest ('\n' :: acc)
  | '\\' :: 'r' :: rest, acc => parseStringBody rest ('\r' :: acc)
  | '\\' :: 't' :: rest, acc => parseStringBody rest ('\t' :: acc)
  | '\\' :: 'u' :: h1 :: h2 :: h3 :: h4 :: rest, acc =>
    (match hexVal h1, hexVal h2, hexVal h3, hexVal h4 with
     | some a, some b, some c, some d =>
       let n := ((a * 16 + b) * 16 + c) * 16 + d
       if n < 0xd800 || 0xdfff < n then
         parseStringBody rest (Char.ofNat n :: acc)
       else none
     | _, _, _, _ => none)
  | '\\' :: _, _ => none
  | c :: rest, acc =>
    if c.toNat < 32 then none else parseStringBody rest (c :: acc)

/-- Split a maximal run of leading decimal digits from the input. -/
def takeDigits : List Char → List Char × List Char
  | [] => ([], [])
  | c :: rest =>
    if c.isDigit then
      match takeDigits rest with
      | (ds, r) => (c :: ds, r)
    else ([], c :: rest)

/-- Digit run to its numeric value. -/
def digitsToNat (ds : List Char) : Nat :=
  ds.foldl (fun acc c => acc * 10 + (c.toNat - 48)) 0

/-- Validity of an integer literal: no redundant leading zero, and not
followed by a fraction or exponent (floats are outside the model). -/
def numOk (ds r : List Char) : Bool :=
  (decide (ds.length = 1) || !(ds.head? == some '0')) &&
  (match r with
   | c :: _ => !(c == '.' || c == 'e' || c == 'E')
   | [] => true)

/-- Parse an integer literal (with optional minus sign). -/
def parseNum (cs : List Char) : Option (Json × List Char) :=
  match cs with
  | '-' :: rest =>
    match takeDigits rest with
    | ([], _) => none
    | (ds, r) => if numOk ds r then some (.num (-(digitsToNat ds : Int)), r) else none
  | _ =>
    match takeDigits cs with
    | ([], _) => none
    | (ds, r) => if numOk ds r then some (.num (digitsToNat ds : Int), r) else none

mutual

/-- Parse one JSON value; fuel bounds the recursion depth. -/
def parseVal : Nat → List Char → Option (Json × List Char)
  | 0, _ => none
  | fuel + 1, cs =>
    match skipWs cs with
    | 'n' :: 'u' :: 'l' :: 'l' :: rest => some (.null, rest)
    | 't' :: 'r' :: 'u' :: 'e' :: rest => some (.bool true, rest)
    | 'f' :: 'a' :: 'l' :: 's' :: 'e' :: rest => some (.bool false, rest)
    | '"' :: rest =>
      match parseStringBody rest [] with
      | some (s, r) => some (.str s, r)
      | none => none
    | '[' :: rest =>
      (match skipWs rest with
       | ']' :: r => some (.arr [], r)
       | _ =>
         match parseArrItems fuel rest with
         | some (xs, r) => some (.arr xs, r)
         | none => none)
    | '\x7b' :: rest =>
      (match skipWs rest with
       | '\x7d' :: r => some (.obj [], r)
       | _ =>
         match parseObjItems fuel rest with
         | some (fs, r) => some (.obj fs, r)
         | none => none)
    | other => parseNum other

/-- Parse the comma-separated items of a non-empty array, up to `]`. -/
def parseArrItems : Nat → List Char → Option (List Json × List Char)
  | 0, _ => none
  | fuel + 1, cs =>
    match parseVal fuel cs with
    | none => none
    | some (v, r) =>
      match skipWs r with
      | ',' :: r2 =>
        (match parseArrItems fuel r2 with
         | some (xs, r3) => some (v :: xs, r3)
         | none => none)
      | ']' :: r2 => some ([v], r2)
      | _ => none

/-- Parse the key/value pairs of a non-empty object, up to the closing
brace. -/
def parseObjItems : Nat → List Char → Option (List (String × Json) × List Char)
  | 0, _ => none
  | fuel + 1, cs =>
    match skipWs cs with
    | '"' :: rest =>
      (match parseStringBody rest [] with
       | none => none
       | some (k, r) =>
         match skipWs r with
         | ':' :: r2 =>
           (match parseVal fuel r2 with
            | none => none
            | some (v, r3) =>
              match skipWs r3 with
              | ',' :: r4 =>
                (match parseObjItems fuel r4 with
                 | some (fs, r5) => some ((k, v) :: fs, r5)
                 | none => none)
              | '\x7d' :: r4 => some ([(k, v)], r4)
              | _ => none)
         | _ => none)
    | _ => none

end

/-- Embedding of `json.loads`: parse a complete JSON document, requiring
only whitespace after the value. -/
def parseJson (s : String) : Option Json :=
  match parseVal (2 * s.data.length + 8) s.data with
  | some (j, r) => if (skipWs r).isEmpty then some j else none
  | none => none

-- ---------------------------------------------------------------------------
-- String helpers mirroring the Python string operations used by the plugin.
-- ---------------------------------------------------------------------------

/-- Characters stripped by Python `str.lstrip()` / `str.strip()`. -/
def pyWs (c : Char) : Bool :=
  c == ' ' || c == '\t' || c == '\n' || c == '\r' || c == '\x0b' || c == '\x0c'

/-- Python `s.lstrip()`. -/
def lstrip (s : String) : String :=
  ⟨s.data.dropWhile pyWs⟩

/-- Python `s.strip() == ""`: the line is entirely whitespace. -/
def stripEmpty (s : String) : Bool :=
  (s.data.dropWhile pyWs).isEmpty

/-- Whether `p` is a prefix of the character list. -/
def chPre : List Char → List Char → Bool
  | [], _ => true
  | _ :: _, [] => false
  | p :: ps, c :: cs => p == c && chPre ps cs

/-- Whether `p` occurs as a contiguous run inside the character list
(Python `p in s`). -/
def chSub (p : List Char) : List Char → Bool
  | [] => chPre p []
  | c :: cs => chPre p (c :: cs) || chSub p cs

/-- Python `s.startswith(p)`. -/
def strStarts (s p : String) : Bool :=
  chPre p.data s.data

/-- Python `p in s` (substring containment). -/
def strContains (s p : String) : Bool :=
  chSub p.data s.data

/-- Python slicing `s[n:]` (by code points). -/
def strDrop (s : String) (n : Nat) : String :=
  ⟨s.data.drop n⟩

/-- Python `s.lower()` (ASCII letters, which is all the keywords use). -/
def lowerStr (s : String) : String :=
  ⟨s.data.map Char.toLower⟩

-- ---------------------------------------------------------------------------
-- Stream decoder / reply aggregator (`_stream_reply`).
-- ---------------------------------------------------------------------------

/-- The mutable state of `_stream_reply`'s decode loop: the accumulated
reply `result` and the `current_msg_id` variable (initially the Python
string `""`; an assignment from a record may store any JSON value). -/
structure StreamState where
  result : String
  msgId : Json
deriving Repr

/-- Outcome of the decode loop: early return on the branch-not-resolved
sentinel, or normal exhaustion with the final state. -/
inductive StreamOutcome where
  | unresolved
  | done (st : StreamState)
deriving Repr

/-- Python `choice.get("c", 0) == 0`: the accepted-tag test for a choice's
tag value, including Python's `False == 0` quirk. -/
def pyTagAccepted : Json → Bool
  | .num n => n == 0
  | .bool b => !b
  | _ => false

/-- The loop `for choice in j["c"]` of `_stream_reply`: a choice whose tag
is accepted (absent tags default to 0) and whose `"v"` is a string appends
that string.  A non-dict choice or a non-string `"v"` raises inside the
per-line `try`, which aborts the remaining choices of this record while
keeping what was already appended. -/
def processChoices : List Json → String → String
  | [], acc => acc
  | ch :: rest, acc =>
    match ch with
    | .obj _ =>
      if pyTagAccepted ((ch.getOpt "c").getD (.num 0)) then
        match ch.getOpt "v" with
        | some (.str s) => processChoices rest (acc ++ s)
        | some _ => acc
        | none => processChoices rest acc
      else processChoices rest acc
    | _ => acc

/-- Processing of one parsed data-frame record: `msg_id` is recorded when
present (independently of the text fields), then a list-valued `"c"` field
is folded through `processChoices`, and otherwise a string-valued `"v"`
field is appended.  A non-dict record performs no state change (every
access the Python code makes on it either misses or raises before any
mutation, and the per-line handler swallows the raise). -/
def processRecord (st : StreamState) (j : Json) : StreamState :=
  match j with
  | .obj _ =>
    let m1 := match j.getOpt "msg_id" with
      | some v => v
      | none => st.msgId
    let t1 :=
      match j.getOpt "c" with
      | some (.arr l) => processChoices l st.result
      | _ =>
        match j.getOpt "v" with
        | some (.str s) => st.result ++ s
        | _ => st.result
    ⟨t1, m1⟩
  | _ => st

/-- The sentinel test on a non-data-frame line:
`json.loads(line).get("code") == "chat_choice_shown"`.  A non-dict value
raises on `.get` and is caught (no early return). -/
def isChoiceShown (j : Json) : Bool :=
  match j with
  | .obj _ =>
    match j.getOpt "code" with
    | some (.str s) => s == "chat_choice_shown"
    | _ => false
  | _ => false

/-- The `async for line in resp.aiter_lines()` loop of `_stream_reply`:
empty lines are skipped; a non-data-frame line that parses to a record
carrying the `chat_choice_shown` code returns early; a data-frame line has
its prefix stripped, is skipped when blank or unparseable, and otherwise
updates the state through `processRecord`. -/
def runLines : List String → StreamState → StreamOutcome
  | [], st => .done st
  | l :: rest, st =>
    if l = "" then runLines rest st
    else if strStarts l "data: " then
      let raw := strDrop l 6
      if stripEmpty raw then runLines rest st
      else
        match parseJson raw with
        | some j => runLines rest (processRecord st j)
        | none => runLines rest st
    else
      match parseJson l with
      | some j => if isChoiceShown j then .unresolved else runLines rest st
      | none => runLines rest st

/-- The message returned when the branch-not-resolved sentinel is seen. -/
def unresolvedMsg : String := "⚠️ 检测到对话分支未选择，请重试或新建会话。"

/-- The message returned when the streaming request itself raises. -/
def streamFailMsg : String := "请求失败，请稍后再试。"

/-- Input to one `_stream_reply` call: either a transport-level fault
(the outer `try` catches and returns the generic failure message) or the
line stream delivered by the backend. -/
inductive StreamInput where
  | fault
  | lines (ls : List String)

/-- The string `_stream_reply` returns.  The trailing `_send_choice` call
is fire-and-forget: it swallows every exception and never changes the
returned value, so it does not appear in the result. -/
def streamReply (input : StreamInput) : String :=
  match input with
  | .fault => streamFailMsg
  | .lines ls =>
    match runLines ls ⟨"", .str ""⟩ with
    | .unresolved => unresolvedMsg
    | .done st => st.result

-- ---------------------------------------------------------------------------
-- Session store and transport outcomes.
-- ---------------------------------------------------------------------------

/-- The `user_sessions` dict (`qq -> chat_id`).  Values are JSON values:
the code stores whatever truthy value the backend returned. -/
abbrev Store := String → Option Json

/-- The `user_models` dict (`qq -> "Orange Cat" / "Exotic Shorthair"`). -/
abbrev MStore := String → Option String

/-- Dict assignment `d[k] = v`. -/
def upd {α : Type} (m : String → Option α) (k : String) (v : α) :
    String → Option α :=
  fun k1 => if k1 = k then some v else m k1

/-- Outcome of one plain HTTP POST: `fail` covers a network fault and a
non-2xx status (`raise_for_status`), `ok` carries the decoded JSON body. -/
inductive HttpResult where
  | fail
  | ok (body : Json)

/-- Embedding of `_switch_model(user_id, chat_id, model_name)`.  `ok`
is the outcome of the `select_model` POST: `true` exactly when the request
returned status 200 (a fault or any other status lands in the `false`
branch).  On success the user's recorded model is updated; on failure
nothing changes. -/
def switchModelCall (ok : Bool) (models : MStore) (userId model : String) :
    Bool × MStore :=
  if ok then (true, upd models userId model) else (false, models)

/-- Result of `_create_new_session`: the returned value (`chat_id`, or the
Python string `""` on failure), the model name sent in the create payload,
and the two dicts after the call. -/
structure CreateResult where
  chatId : Json
  usedModel : String
  sessions : Store
  models : MStore

/-- Embedding of `_create_new_session(user_id)`.  The create payload uses
the user's recorded model, defaulting to `"Orange Cat"`.  On a 2xx
response the identifier is `data.get("chat_id") or data.get("id")`
(first truthy wins); if it is truthy it is stored and a best-effort
`_switch_model` call (outcome `selectOk`) may record the model.  Every
failure path — transport fault, non-2xx, a non-dict body (whose `.get`
raises), or no truthy identifier — returns `""` and leaves both dicts
unchanged. -/
def createNewSession (createResp : HttpResult) (selectOk : Bool)
    (sessions : Store) (models : MStore) (userId : String) : CreateResult :=
  let model := (models userId).getD "Orange Cat"
  match createResp with
  | .fail => ⟨.str "", model, sessions, models⟩
  | .ok body =>
    match body with
    | .obj _ =>
      let cand := pyOr (getOrNull body "chat_id") (getOrNull body "id")
      if truthy cand then
        ⟨cand, model, upd sessions userId cand,
          (switchModelCall selectOk models userId model).2⟩
      else ⟨.str "", model, sessions, models⟩
    | _ => ⟨.str "", model, sessions, models⟩

-- ---------------------------------------------------------------------------
-- Public plugin operations.
-- ---------------------------------------------------------------------------

/-- The keyword matching at the top of `switch_model`: case-insensitive
substring tests, 橘猫/orange before 黑猫/exotic; `none` when neither
matches. The pair is (backend model name, display label). -/
def keywordMatch (target : String) : Option (String × String) :=
  if strContains target "橘猫" || strContains (lowerStr target) "orange" then
    some ("Orange Cat", "橘猫")
  else if strContains target "黑猫" || strContains (lowerStr target) "exotic" then
    some ("Exotic Shorthair", "黑猫")
  else none

/-- Embedding of the `switch_model` plugin action.  `createResp` and
`soInner` are the transport outcomes of the session-creation path (used
only when the user has no session); `soOuter` is the outcome of the final
`_switch_model` call.  Returns the reply string and the two dicts. -/
def switchModel (createResp : HttpResult) (soInner soOuter : Bool)
    (sessions : Store) (models : MStore) (userId target : String) :
    String × Store × MStore :=
  match keywordMatch target with
  | none => ("请指定要切换的模型：橘猫 / 黑猫", sessions, models)
  | some (tm, tn) =>
    match sessions userId with
    | some _ =>
      let p := switchModelCall soOuter models userId tm
      (if p.1 then "✨ 已切换为：" ++ tn else "❌ 切换为 " ++ tn ++ " 失败",
        sessions, p.2)
    | none =>
      let r := createNewSession createResp soInner sessions models userId
      if truthy r.chatId then
        let p := switchModelCall soOuter r.models userId tm
        (if p.1 then "✨ 已切换为：" ++ tn else "❌ 切换为 " ++ tn ++ " 失败",
          r.sessions, p.2)
      else ("❌ 切换失败：无法创建会话", r.sessions, r.models)

/-- Embedding of the `new_session` plugin action: unconditionally create a
session; on success the confirmation shows 橘猫 exactly when the model
recorded for the user after creation equals `"Orange Cat"` (any other
value, including no recorded model, shows 黑猫). -/
def newSession (createResp : HttpResult) (selectOk : Bool)
    (sessions : Store) (models : MStore) (userId : String) :
    String × Store × MStore :=
  let r := createNewSession createResp selectOk sessions models userId
  if truthy r.chatId then
    let name := if r.models userId = some "Orange Cat" then "橘猫" else "黑猫"
    ("已创建新的会话（当前模型：" ++ name ++ "）！", r.sessions, r.models)
  else ("❌ 创建会话失败，请稍后再试。", r.sessions, r.models)

/-- The configured watermark suffix (`config.WATERMARK` default). -/
def WATERMARK : String :=
  "\n\n—— 内容由 anuneko.com 提供，该服务只是一个第三方前端"

/-- Embedding of the `handle_chat_command` plugin action.  `stream` is the
outcome of the `_stream_reply` call.  A message without the `/chat` prefix
returns `""`; an empty remainder returns the input prompt; a failed
implicit session creation returns the creation-failure message; otherwise
the watermark is appended to whatever `_stream_reply` returned. -/
def handleChatCommand (createResp : HttpResult) (selectOk : Bool)
    (stream : StreamInput) (sessions : Store) (models : MStore)
    (userId fullText : String) : String × Store × MStore :=
  let t := lstrip fullText
  if strStarts t "/chat" then
    let content := lstrip (strDrop t 5)
    if content = "" then ("❗ 请输入内容，例如：/chat 你好", sessions, models)
    else
      match sessions userId with
      | some _ => (streamReply stream ++ WATERMARK, sessions, models)
      | none =>
        let r := createNewSession createResp selectOk sessions models userId
        if truthy r.chatId then
          (streamReply stream ++ WATERMARK, r.sessions, r.models)
        else ("❌ 创建会话失败，请稍后再试。", r.sessions, r.models)
  else ("", sessions, models)

-- ---------------------------------------------------------------------------
-- Helper lemmas.
-- ---------------------------------------------------------------------------

/-- A successful `getOpt` forces the value to be an object. -/
theorem getOpt_obj {j : Json} {k : String} {v : Json}
    (h : j.getOpt k = some v) : ∃ fs, j = .obj fs := by
  cases j
  case obj fs => exact ⟨fs, rfl⟩
  all_goals simp [Json.getOpt] at h

/-- A record whose `code` field is the sentinel string passes the
early-return test of the decode loop. -/
theorem isChoiceShown_of_code {j : Json}
    (h : j.getOpt "code" = some (.str "chat_choice_shown")) :
    isChoiceShown j = true := by
  rcases getOpt_obj h with ⟨fs, rfl⟩
  simp only [isChoiceShown]
  rw [h]
  decide

/-- If some line of the stream is a non-empty, non-data-frame line parsing
to a record that passes the sentinel test, the decode loop returns the
unresolved outcome, whatever state it has accumulated. -/
theorem runLines_unresolved_of_trigger :
    ∀ (ls : List String) (st : StreamState),
      (∃ l ∈ ls, ∃ j, l ≠ "" ∧ strStarts l "data: " = false ∧
        parseJson l = some j ∧ isChoiceShown j = true) →
      runLines ls st = .unresolved := by
  intro ls
  induction ls with
  | nil => intro st hex; simp at hex
  | cons h t ih =>
    intro st hex
    rcases hex with ⟨l, hmem, j, hne, hnd, hp, hcs⟩
    rcases List.mem_cons.mp hmem with rfl | hmem2
    · simp only [runLines]
      rw [if_neg hne, if_neg (by simp [hnd]), hp]
      simp [hcs]
    · have hex2 : ∃ l ∈ t, ∃ j, l ≠ "" ∧ strStarts l "data: " = false ∧
          parseJson l = some j ∧ isChoiceShown j = true :=
        ⟨l, hmem2, j, hne, hnd, hp, hcs⟩
      simp only [runLines]
      by_cases h0 : h = ""
      · rw [if_pos h0]; exact ih st hex2
      · rw [if_neg h0]
        by_cases hd : strStarts h "data: " = true
        · rw [if_pos hd]
          by_cases hse : stripEmpty (strDrop h 6) = true
          · rw [if_pos hse]; exact ih st hex2
          · rw [if_neg hse]
            cases hp2 : parseJson (strDrop h 6) with
            | some j2 => exact ih _ hex2
            | none => exact ih st hex2
        · rw [if_neg hd]
          cases hp2 : parseJson h with
          | some j2 =>
            by_cases hcs2 : isChoiceShown j2 = true
            · simp [hcs2]
            · simp only [hcs2]
              rw [if_neg (by simp [hcs2])]
              exact ih st hex2
          | none => exact ih st hex2

/-- If every line of the stream is empty or unparseable (in the way the
decode loop attempts to parse it), the loop finishes with its state
untouched. -/
theorem runLines_skips_garbage :
    ∀ (ls : List String) (st : StreamState),
      (∀ l ∈ ls, l = "" ∨
        (strStarts l "data: " = true ∧ parseJson (strDrop l 6) = none) ∨
        (strStarts l "data: " = false ∧ parseJson l = none)) →
      runLines ls st = .done st := by
  intro ls
  induction ls with
  | nil => intro st _; rfl
  | cons h t ih =>
    intro st hall
    have hh := hall h (List.mem_cons_self h t)
    have ht : ∀ l ∈ t, l = "" ∨
        (strStarts l "data: " = true ∧ parseJson (strDrop l 6) = none) ∨
        (strStarts l "data: " = false ∧ parseJson l = none) :=
      fun l hl => hall l (List.mem_cons_of_mem h hl)
    simp only [runLines]
    by_cases h0 : h = ""
    · rw [if_pos h0]; exact ih st ht
    · rw [if_neg h0]
      rcases hh with rfl | ⟨hd, hp⟩ | ⟨hd, hp⟩
      · exact absurd rfl h0
      · rw [if_pos hd]
        by_cases hse : stripEmpty (strDrop h 6) = true
        · rw [if_pos hse]; exact ih st ht
        · rw [if_neg hse, hp]; exact ih st ht
      · rw [if_neg (by simp [hd]), hp]; exact ih st ht

/-- Whenever `_create_new_session` returns a truthy identifier, that
identifier has been stored under the user's key. -/
theorem created_session_stored {createResp : HttpResult} {selectOk : Bool}
    {sessions : Store} {models : MStore} {userId : String}
    (h : truthy (createNewSession createResp selectOk sessions models userId).chatId = true) :
    (createNewSession createResp selectOk sessions models userId).sessions userId
      = some (createNewSession createResp selectOk sessions models userId).chatId := by
  cases createResp with
  | fail => exact absurd h (by simp [createNewSession, truthy])
  | ok body =>
    cases body
    case obj fs =>
      by_cases htr :
          truthy (pyOr (getOrNull (.obj fs) "chat_id") (getOrNull (.obj fs) "id")) = true
      · simp [createNewSession, htr, upd]
      · have hz : (createNewSession (.ok (.obj fs)) selectOk sessions models userId).chatId
            = .str "" := by
          simp only [createNewSession]
          rw [if_neg htr]
        rw [hz] at h
        exact absurd h (by decide)
    all_goals exact absurd h (by simp [createNewSession, truthy])

-- ---------------------------------------------------------------------------
-- Claim theorems.
-- ---------------------------------------------------------------------------

/-- C2: for the exact line sequence
`["data: {\"msg_id\":\"m1\"}", "data: {\"c\":[{\"c\":0,\"v\":\"He\"},{\"c\":1,\"v\":\"X\"}]}",
"data: {\"c\":[{\"c\":0,\"v\":\"llo\"}]}"]`, decoding and aggregation yield
the accumulated text `"Hello"` and last message id `"m1"`; the choice with
tag 1 contributes no text. -/
theorem decoder_round_trip_hello :
    runLines ["data: \x7b\"msg_id\":\"m1\"\x7d",
        "data: \x7b\"c\":[\x7b\"c\":0,\"v\":\"He\"\x7d,\x7b\"c\":1,\"v\":\"X\"\x7d]\x7d",
        "data: \x7b\"c\":[\x7b\"c\":0,\"v\":\"llo\"\x7d]\x7d"] ⟨"", .str ""⟩
      = .done ⟨"Hello", .str "m1"⟩ ∧
    streamReply (.lines ["data: \x7b\"msg_id\":\"m1\"\x7d",
        "data: \x7b\"c\":[\x7b\"c\":0,\"v\":\"He\"\x7d,\x7b\"c\":1,\"v\":\"X\"\x7d]\x7d",
        "data: \x7b\"c\":[\x7b\"c\":0,\"v\":\"llo\"\x7d]\x7d"]) = "Hello" :=
  ⟨rfl, rfl⟩

/-- C3: a non-empty, non-data-frame line that parses to a record whose
`code` field equals the sentinel `"chat_choice_shown"` makes the decode
loop terminate with the unresolved outcome, regardless of its position in
the stream and of any previously accumulated state, and the stream call
returns the unresolved-branch retry message. -/
theorem error_sentinel_forces_unresolved
    (pre post : List String) (l : String) (j : Json) (st : StreamState)
    (hne : l ≠ "") (hnd : strStarts l "data: " = false)
    (hp : parseJson l = some j)
    (hcode : j.getOpt "code" = some (.str "chat_choice_shown")) :
    runLines (pre ++ l :: post) st = .unresolved ∧
    streamReply (.lines (pre ++ l :: post)) = unresolvedMsg := by
  have hcs := isChoiceShown_of_code hcode
  have hex : ∃ x ∈ pre ++ l :: post, ∃ j2, x ≠ "" ∧ strStarts x "data: " = false ∧
      parseJson x = some j2 ∧ isChoiceShown j2 = true :=
    ⟨l, by simp, j, hne, hnd, hp, hcs⟩
  refine ⟨runLines_unresolved_of_trigger _ st hex, ?_⟩
  simp only [streamReply]
  rw [runLines_unresolved_of_trigger _ ⟨"", .str ""⟩ hex]

/-- Witness for C3 at a concrete stream: text accumulated before the
sentinel line is discarded and a data line after it is never reached. -/
theorem error_sentinel_forces_unresolved_witness :
    runLines (["data: \x7b\"v\":\"Hi\"\x7d"] ++
        "\x7b\"code\":\"chat_choice_shown\"\x7d" :: ["data: \x7b\"v\":\"more\"\x7d"])
        ⟨"", .str ""⟩ = .unresolved ∧
    streamReply (.lines (["data: \x7b\"v\":\"Hi\"\x7d"] ++
        "\x7b\"code\":\"chat_choice_shown\"\x7d" :: ["data: \x7b\"v\":\"more\"\x7d"]))
      = unresolvedMsg :=
  error_sentinel_forces_unresolved ["data: \x7b\"v\":\"Hi\"\x7d"]
    ["data: \x7b\"v\":\"more\"\x7d"] "\x7b\"code\":\"chat_choice_shown\"\x7d"
    (.obj [("code", .str "chat_choice_shown")]) ⟨"", .str ""⟩
    (by decide) rfl rfl rfl

/-- C4 counterexample: a data-frame record carrying both a
message-identifier field and a choice list does NOT emit only a message-id
event — the accepted choice's text is appended as well ("X" here), so the
claim that such a record contributes nothing to the reply text is false. -/
theorem msgid_record_contributes_text :
    runLines ["data: \x7b\"msg_id\":\"m1\",\"c\":[\x7b\"c\":0,\"v\":\"X\"\x7d]\x7d"]
        ⟨"", .str ""⟩ = .done ⟨"X", .str "m1"⟩ ∧
    streamReply (.lines ["data: \x7b\"msg_id\":\"m1\",\"c\":[\x7b\"c\":0,\"v\":\"X\"\x7d]\x7d"])
      = "X" ∧ ("X" : String) ≠ "" :=
  ⟨rfl, rfl, by decide⟩

/-- C4 amended: the message-identifier check is independent of the text
extraction, not first-match-wins — a record with a `msg_id` field records
that id AND its list-valued `c` field is still folded for accepted-choice
text in the same pass. -/
theorem msgid_and_choices_both_processed
    (st : StreamState) (j v : Json) (l : List Json)
    (hm : j.getOpt "msg_id" = some v) (hc : j.getOpt "c" = some (.arr l)) :
    processRecord st j = ⟨processChoices l st.result, v⟩ := by
  rcases getOpt_obj hm with ⟨fs, rfl⟩
  simp only [processRecord]
  rw [hm, hc]

/-- Witness for C4's amended statement on a concrete record. -/
theorem msgid_and_choices_both_processed_witness :
    processRecord ⟨"pre", .str ""⟩
        (.obj [("msg_id", .str "m1"), ("c", .arr [.obj [("c", .num 0), ("v", .str "X")]])])
      = ⟨processChoices [.obj [("c", .num 0), ("v", .str "X")]] "pre", .str "m1"⟩ :=
  msgid_and_choices_both_processed ⟨"pre", .str ""⟩ _ _ _ rfl rfl

/-- C5: a stream consisting solely of empty lines and lines the decoder
fails to parse (as a data-frame remainder or as an out-of-band record)
raises nothing and yields the initial state back: empty accumulated text,
no message id recorded, and the stream call returns `""` — a degenerate
success, not the failure message. -/
theorem garbage_stream_degenerate_success
    (ls : List String)
    (hall : ∀ l ∈ ls, l = "" ∨
      (strStarts l "data: " = true ∧ parseJson (strDrop l 6) = none) ∨
      (strStarts l "data: " = false ∧ parseJson l = none)) :
    runLines ls ⟨"", .str ""⟩ = .done ⟨"", .str ""⟩ ∧
    streamReply (.lines ls) = "" := by
  have h1 := runLines_skips_garbage ls ⟨"", .str ""⟩ hall
  refine ⟨h1, ?_⟩
  simp only [streamReply]
  rw [h1]

/-- Witness for C5 on a concrete garbage stream. -/
theorem garbage_stream_degenerate_success_witness :
    runLines ["", "garbage", "data: ", "data: \x7bnot json"] ⟨"", .str ""⟩
      = .done ⟨"", .str ""⟩ ∧
    streamReply (.lines ["", "garbage", "data: ", "data: \x7bnot json"]) = "" :=
  garbage_stream_degenerate_success ["", "garbage", "data: ", "data: \x7bnot json"]
    (by
      intro l hl
      simp only [List.mem_cons, List.not_mem_nil, or_false] at hl
      rcases hl with rfl | rfl | rfl | rfl
      · exact Or.inl rfl
      · exact Or.inr (Or.inr ⟨rfl, rfl⟩)
      · exact Or.inr (Or.inl ⟨rfl, rfl⟩)
      · exact Or.inr (Or.inl ⟨rfl, rfl⟩))

/-- C9: a choice element of a data-frame record's `c` list that lacks the
numeric tag field defaults to the accepted tag 0 (`choice.get("c", 0)`),
and its string-valued `v` is appended to the accumulated reply text, after
which the remaining choices are processed. -/
theorem tagless_choice_treated_accepted
    (fs : List (String × Json)) (rest : List Json) (acc s : String)
    (hc : jlookup fs "c" = none) (hv : jlookup fs "v" = some (.str s)) :
    pyTagAccepted (((Json.obj fs).getOpt "c").getD (.num 0)) = true ∧
    processChoices (Json.obj fs :: rest) acc = processChoices rest (acc ++ s) := by
  have h1 : pyTagAccepted (((Json.obj fs).getOpt "c").getD (.num 0)) = true := by
    simp only [Json.getOpt]
    rw [hc]
    decide
  refine ⟨h1, ?_⟩
  simp only [processChoices]
  rw [if_pos h1]
  simp only [Json.getOpt]
  rw [hv]

/-- Witness for C9 on a concrete tagless choice. -/
theorem tagless_choice_treated_accepted_witness :
    pyTagAccepted (((Json.obj [("v", Json.str "Hi")]).getOpt "c").getD (.num 0)) = true ∧
    processChoices [Json.obj [("v", Json.str "Hi")],
        Json.obj [("c", Json.num 1), ("v", Json.str "no")]] "He"
      = processChoices [Json.obj [("c", Json.num 1), ("v", Json.str "no")]] ("He" ++ "Hi") :=
  tagless_choice_treated_accepted [("v", .str "Hi")]
    [Json.obj [("c", Json.num 1), ("v", Json.str "no")]] "He" "Hi" rfl rfl

/-- C1 counterexample: the chat handler appends the watermark to the
transport-failure message and to the unresolved-branch retry message,
contradicting the claim that these are returned without the watermark. -/
theorem watermark_appended_to_error_messages :
    (handleChatCommand .fail true .fault (fun _ => some (.str "s1")) (fun _ => none)
        "u" "/chat hi").1 = streamFailMsg ++ WATERMARK ∧
    (handleChatCommand .fail true (.lines ["\x7b\"code\":\"chat_choice_shown\"\x7d"])
        (fun _ => some (.str "s1")) (fun _ => none) "u" "/chat hi").1
      = unresolvedMsg ++ WATERMARK ∧
    streamFailMsg ++ WATERMARK ≠ streamFailMsg ∧
    unresolvedMsg ++ WATERMARK ≠ unresolvedMsg :=
  ⟨rfl, rfl, by decide, by decide⟩

/-- C1 amended: on every chat invocation that reaches the streaming call
(recognized command prefix, non-empty content, session available or
created), the returned string is whatever `_stream_reply` produced — the
successful aggregated text, the unresolved-branch retry message or the
transport-failure message alike — with the watermark appended; only the
non-command empty return, the input prompt and the session-creation
failure message are produced without the watermark. -/
theorem chat_watermark_on_stream_result
    (createResp : HttpResult) (selectOk : Bool) (stream : StreamInput)
    (sessions : Store) (models : MStore) (userId fullText : String)
    (hcmd : strStarts (lstrip fullText) "/chat" = true)
    (hcontent : lstrip (strDrop (lstrip fullText) 5) ≠ "")
    (hsess : sessions userId ≠ none ∨
      truthy (createNewSession createResp selectOk sessions models userId).chatId = true) :
    (handleChatCommand createResp selectOk stream sessions models userId fullText).1
      = streamReply stream ++ WATERMARK := by
  simp only [handleChatCommand]
  rw [if_pos hcmd, if_neg hcontent]
  cases hs : sessions userId with
  | some cid => rfl
  | none =>
    rcases hsess with hne | htr
    · exact absurd hs hne
    · simp only []
      rw [if_pos htr]

/-- Witness for C1's amended statement: a transport fault still comes back
with the watermark appended. -/
theorem chat_watermark_on_stream_result_witness :
    (handleChatCommand .fail true .fault (fun _ => some (.str "s1")) (fun _ => none)
        "u" "/chat hello").1 = streamReply .fault ++ WATERMARK :=
  chat_watermark_on_stream_result .fail true .fault (fun _ => some (.str "s1"))
    (fun _ => none) "u" "/chat hello" rfl (by decide)
    (Or.inl (Option.some_ne_none (Json.str "s1")))

/-- C6 counterexample: a user with no recorded model gets a session
created with the default model "Orange Cat", yet when the best-effort
post-creation `_switch_model` call fails, the successful `new_session`
confirmation shows 黑猫 (ModelB's label), not ModelA's 橘猫. -/
theorem new_session_label_mismatch :
    (createNewSession (.ok (.obj [("chat_id", .str "c1")])) false
        (fun _ => none) (fun _ => none) "u").usedModel = "Orange Cat" ∧
    truthy (createNewSession (.ok (.obj [("chat_id", .str "c1")])) false
        (fun _ => none) (fun _ => none) "u").chatId = true ∧
    (newSession (.ok (.obj [("chat_id", .str "c1")])) false
        (fun _ => none) (fun _ => none) "u").1 = "已创建新的会话（当前模型：黑猫）！" ∧
    ("已创建新的会话（当前模型：黑猫）！" : String) ≠ "已创建新的会话（当前模型：橘猫）！" :=
  ⟨rfl, rfl, rfl, by decide⟩

/-- C6 amended: for a user with no recorded model, a successful
`new_session` creates the backend session with the default model
"Orange Cat"; the confirmation shows ModelA's label 橘猫 exactly when the
best-effort post-creation `_switch_model` call succeeded (recording the
model), and shows 黑猫 when that call failed. -/
theorem new_session_default_model_label
    (fs : List (String × Json)) (sessions : Store) (models : MStore) (userId : String)
    (hm : models userId = none)
    (htr : truthy (pyOr (getOrNull (.obj fs) "chat_id") (getOrNull (.obj fs) "id")) = true) :
    (createNewSession (.ok (.obj fs)) true sessions models userId).usedModel
      = "Orange Cat" ∧
    (newSession (.ok (.obj fs)) true sessions models userId).1
      = "已创建新的会话（当前模型：橘猫）！" ∧
    (newSession (.ok (.obj fs)) false sessions models userId).1
      = "已创建新的会话（当前模型：黑猫）！" := by
  refine ⟨?_, ?_, ?_⟩
  · simp only [createNewSession]
    rw [hm]
    simp only [Option.getD_none]
    rw [if_pos htr]
  · simp only [newSession, createNewSession, switchModelCall]
    rw [hm]
    simp only [Option.getD_none]
    rw [if_pos htr]
    simp [htr, upd]
  · simp only [newSession, createNewSession, switchModelCall]
    rw [hm]
    simp only [Option.getD_none]
    rw [if_pos htr]
    simp [htr, hm]

/-- Witness for C6's amended statement on a concrete creation response. -/
theorem new_session_default_model_label_witness :
    (createNewSession (.ok (.obj [("chat_id", .str "c1")])) true
        (fun _ => none) (fun _ => none) "u").usedModel = "Orange Cat" ∧
    (newSession (.ok (.obj [("chat_id", .str "c1")])) true
        (fun _ => none) (fun _ => none) "u").1 = "已创建新的会话（当前模型：橘猫）！" ∧
    (newSession (.ok (.obj [("chat_id", .str "c1")])) false
        (fun _ => none) (fun _ => none) "u").1 = "已创建新的会话（当前模型：黑猫）！" :=
  new_session_default_model_label [("chat_id", .str "c1")]
    (fun _ => none) (fun _ => none) "u" rfl rfl

/-- C7 counterexample: a creation response whose `chat_id` field is
present but empty does not win by presence — the code stores the truthy
`id` value "X" and the operation succeeds, contradicting
first-present-wins. -/
theorem falsy_chat_id_skipped_for_id :
    (createNewSession (.ok (.obj [("chat_id", .str ""), ("id", .str "X")])) true
        (fun _ => none) (fun _ => none) "u").chatId = .str "X" ∧
    (createNewSession (.ok (.obj [("chat_id", .str ""), ("id", .str "X")])) true
        (fun _ => none) (fun _ => none) "u").sessions "u" = some (.str "X") ∧
    getOrNull (.obj [("chat_id", .str ""), ("id", .str "X")]) "chat_id" = .str "" ∧
    Json.str "X" ≠ Json.str "" :=
  ⟨rfl, rfl, rfl, fun h => by injection h with h2; exact absurd h2 (by decide)⟩

/-- C7 amended: the stored session identifier is the first truthy value
among the response fields `chat_id` then `id` (Python `or` semantics — a
present-but-falsy `chat_id` is skipped in favor of `id`); when no truthy
value exists among them, the operation fails, returning `""` and leaving
the session store unchanged. -/
theorem session_id_first_truthy
    (fs : List (String × Json)) (selectOk : Bool) (sessions : Store)
    (models : MStore) (userId : String) :
    (truthy (pyOr (getOrNull (.obj fs) "chat_id") (getOrNull (.obj fs) "id")) = true →
      (createNewSession (.ok (.obj fs)) selectOk sessions models userId).chatId
        = pyOr (getOrNull (.obj fs) "chat_id") (getOrNull (.obj fs) "id") ∧
      (createNewSession (.ok (.obj fs)) selectOk sessions models userId).sessions userId
        = some (pyOr (getOrNull (.obj fs) "chat_id") (getOrNull (.obj fs) "id"))) ∧
    (truthy (pyOr (getOrNull (.obj fs) "chat_id") (getOrNull (.obj fs) "id")) = false →
      (createNewSession (.ok (.obj fs)) selectOk sessions models userId).chatId = .str "" ∧
      (createNewSession (.ok (.obj fs)) selectOk sessions models userId).sessions
        = sessions) := by
  constructor
  · intro h
    constructor
    · simp only [createNewSession]
      rw [if_pos h]
    · simp only [createNewSession]
      rw [if_pos h]
      simp [upd]
  · intro h
    constructor
    · simp only [createNewSession]
      rw [if_neg (by simp [h])]
    · simp only [createNewSession]
      rw [if_neg (by simp [h])]

/-- Witness for C7's amended statement: with `chat_id` empty and `id`
truthy, the first truthy value "X" is returned and stored. -/
theorem session_id_first_truthy_witness :
    (createNewSession (.ok (.obj [("chat_id", .str ""), ("id", .str "X")])) true
        (fun _ => none) (fun _ => none) "u").chatId
      = pyOr (getOrNull (.obj [("chat_id", .str ""), ("id", .str "X")]) "chat_id")
          (getOrNull (.obj [("chat_id", .str ""), ("id", .str "X")]) "id") ∧
    (createNewSession (.ok (.obj [("chat_id", .str ""), ("id", .str "X")])) true
        (fun _ => none) (fun _ => none) "u").sessions "u"
      = some (pyOr (getOrNull (.obj [("chat_id", .str ""), ("id", .str "X")]) "chat_id")
          (getOrNull (.obj [("chat_id", .str ""), ("id", .str "X")]) "id")) :=
  (session_id_first_truthy [("chat_id", .str ""), ("id", .str "X")] true
    (fun _ => none) (fun _ => none) "u").1 rfl

/-- C8: when the final `selectModel` request of `switch_model` fails, the
failure indication is returned and no session state is reverted — a
pre-existing session entry stays untouched, a session created during the
call remains stored under the user's key, and the recorded model map is
exactly what it was after the (possible) creation step, i.e. it is
updated only by a successful `selectModel` response. -/
theorem switch_model_failure_no_rollback
    (createResp : HttpResult) (soInner : Bool) (sessions : Store) (models : MStore)
    (userId target tm tn : String)
    (hk : keywordMatch target = some (tm, tn)) :
    (∀ cid, sessions userId = some cid →
      switchModel createResp soInner false sessions models userId target
        = ("❌ 切换为 " ++ tn ++ " 失败", sessions, models)) ∧
    (sessions userId = none →
      truthy (createNewSession createResp soInner sessions models userId).chatId = true →
      switchModel createResp soInner false sessions models userId target
        = ("❌ 切换为 " ++ tn ++ " 失败",
            (createNewSession createResp soInner sessions models userId).sessions,
            (createNewSession createResp soInner sessions models userId).models) ∧
      (createNewSession createResp soInner sessions models userId).sessions userId
        = some (createNewSession createResp soInner sessions models userId).chatId) := by
  constructor
  · intro cid hc
    simp only [switchModel]
    rw [hk, hc]
    rfl
  · intro hn htr
    refine ⟨?_, created_session_stored htr⟩
    simp only [switchModel]
    rw [hk, hn]
    simp only []
    rw [if_pos htr]
    rfl

/-- Witness for C8: an existing session, keyword "orange", failed
selectModel — the failure text comes back and both dicts are unchanged. -/
theorem switch_model_failure_no_rollback_witness :
    switchModel .fail true false (fun u => if u = "u" then some (.str "c1") else none)
        (fun _ => none) "u" "orange"
      = ("❌ 切换为 橘猫 失败",
          (fun u => if u = "u" then some (.str "c1") else none), (fun _ => none)) :=
  (switch_model_failure_no_rollback .fail true
      (fun u => if u = "u" then some (.str "c1") else none) (fun _ => none)
      "u" "orange" "Orange Cat" "橘猫" rfl).1 (.str "c1") (by simp)

/-- C10: if session creation fails — transport fault / non-2xx, or a
response object carrying neither `chat_id` nor `id` — the operation
returns the empty string and both in-memory dicts are exactly as before,
so a previously stored session id is preserved. -/
theorem create_session_failure_preserves_sessions
    (createResp : HttpResult) (selectOk : Bool) (sessions : Store)
    (models : MStore) (userId : String)
    (hfail : createResp = .fail ∨
      ∃ fs, createResp = .ok (.obj fs) ∧
        jlookup fs "chat_id" = none ∧ jlookup fs "id" = none) :
    (createNewSession createResp selectOk sessions models userId).chatId = .str "" ∧
    (createNewSession createResp selectOk sessions models userId).sessions = sessions ∧
    (createNewSession createResp selectOk sessions models userId).models = models := by
  rcases hfail with rfl | ⟨fs, rfl, h1, h2⟩
  · exact ⟨rfl, rfl, rfl⟩
  · have hz : pyOr (getOrNull (.obj fs) "chat_id") (getOrNull (.obj fs) "id") = .null := by
      simp [getOrNull, Json.getOpt, h1, h2, pyOr, truthy]
    constructor
    · simp only [createNewSession]
      rw [if_neg (by simp [hz, truthy])]
    constructor
    · simp only [createNewSession]
      rw [if_neg (by simp [hz, truthy])]
    · simp only [createNewSession]
      rw [if_neg (by simp [hz, truthy])]

/-- Witness for C10: a transport fault leaves a previously stored session
id in place and returns the empty string. -/
theorem create_session_failure_preserves_sessions_witness :
    (createNewSession .fail true (fun u => if u = "u" then some (.str "old") else none)
        (fun _ => none) "u").chatId = .str "" ∧
    (createNewSession .fail true (fun u => if u = "u" then some (.str "old") else none)
        (fun _ => none) "u").sessions
      = (fun u => if u = "u" then some (.str "old") else none) ∧
    (createNewSession .fail true (fun u => if u = "u" then some (.str "old") else none)
        (fun _ => none) "u").models = (fun _ => none) :=
  create_session_failure_preserves_sessions .fail true
    (fun u => if u = "u" then some (.str "old") else none) (fun _ => none) "u"
    (Or.inl rfl)

end Anuneko
